import Mathlib

/-!
Verification of the photo2pixel CLI (`convert.py`, `start.py`) against its
natural-language specification.  The CLI glue (preset tables, parameter
validation, path handling, the `main` control flow) is embedded directly from
`convert.py`; the image-transform pipeline (`Photo2PixelModel`, living outside
the embedded sources) is modelled from the specification.
-/

namespace Photo2Pixel

/-- Parameter triple held in a preset configuration dictionary
(`kernel_size`, `pixel_size`, `edge_thresh` keys of the Python dict). -/
structure PresetConfig where
  kernel_size : Int
  pixel_size : Int
  edge_thresh : Int
deriving DecidableEq, Repr

/-- Entry of the table displayed by `print_presets` in `convert.py`:
the parameter triple together with the two description strings. -/
structure PresetFull where
  kernel_size : Int
  pixel_size : Int
  edge_thresh : Int
  desc : String
  desc_cn : String
deriving DecidableEq, Repr

/-- The preset dictionary local to `get_preset_config` in `convert.py`. -/
def preset_table : List (String × PresetConfig) :=
  [("retro", ⟨8, 12, 80⟩),
   ("smooth", ⟨16, 20, 120⟩),
   ("sharp", ⟨6, 8, 60⟩),
   ("classic", ⟨10, 16, 100⟩)]

/-- `get_preset_config` from `convert.py`: `presets.get(preset_name, \x7b\x7d)`;
`none` stands for the empty dictionary returned for an unknown name. -/
def get_preset_config (preset_name : String) : Option PresetConfig :=
  (preset_table.find? (fun kv => kv.1 == preset_name)).map Prod.snd

/-- The preset dictionary local to `print_presets` in `convert.py`,
including the `desc` and `desc_cn` fields it prints. -/
def print_presets_table : List (String × PresetFull) :=
  [("retro", ⟨8, 12, 80, "Retro pixel art style", "复古像素画风格"⟩),
   ("smooth", ⟨16, 20, 120, "Smooth color transitions", "平滑颜色过渡"⟩),
   ("sharp", ⟨6, 8, 60, "Sharp pixel art with strong edges", "锐利边缘像素画"⟩),
   ("classic", ⟨10, 16, 100, "Classic 8-bit style", "经典8位风格"⟩)]

/-- Builds one of the validation error messages of `validate_parameters`:
an English part, the offending value, a Chinese part, the value again
(the shape of the f-strings in `convert.py`). -/
def paramMsg (s1 s2 : String) (v : Int) : String :=
  s1 ++ toString v ++ s2 ++ toString v

/-- The kernel-size error message of `validate_parameters`. -/
def kernelSizeMsg (kernel_size : Int) : String :=
  paramMsg "Kernel size must be between 1-50, got "
    " / 核大小必须在1-50之间，当前值: " kernel_size

/-- The pixel-size error message of `validate_parameters`. -/
def pixelSizeMsg (pixel_size : Int) : String :=
  paramMsg "Pixel size must be between 1-64, got "
    " / 像素大小必须在1-64之间，当前值: " pixel_size

/-- The edge-threshold error message of `validate_parameters`. -/
def edgeThreshMsg (edge_thresh : Int) : String :=
  paramMsg "Edge threshold must be between 0-255, got "
    " / 边缘阈值必须在0-255之间，当前值: " edge_thresh

/-- The `errors` list accumulated by `validate_parameters` in `convert.py`:
one message appended per out-of-range parameter, in source order. -/
def validateErrors (kernel_size pixel_size edge_thresh : Int) : List String :=
  (if ¬(1 ≤ kernel_size ∧ kernel_size ≤ 50) then [kernelSizeMsg kernel_size] else []) ++
  (if ¬(1 ≤ pixel_size ∧ pixel_size ≤ 64) then [pixelSizeMsg pixel_size] else []) ++
  (if ¬(0 ≤ edge_thresh ∧ edge_thresh ≤ 255) then [edgeThreshMsg edge_thresh] else [])

/-- `validate_parameters` from `convert.py`: prints the errors and returns
`False` when the list is non-empty, `True` otherwise. -/
def validate_parameters (kernel_size pixel_size edge_thresh : Int) : Bool :=
  (validateErrors kernel_size pixel_size edge_thresh).isEmpty

/-- ASCII whitespace recognised by Python's default `str.strip`. -/
def isSpaceChar (c : Char) : Bool :=
  c == ' ' || c == '\t' || c == '\n' || c == '\r' || c == '\x0b' || c == '\x0c'

/-- Removes characters satisfying `p` from both ends of a character list
(Python's `str.strip` with a fixed character class). -/
def stripList (p : Char → Bool) (cs : List Char) : List Char :=
  ((cs.dropWhile p).reverse.dropWhile p).reverse

/-- The first character is `c`. -/
def headIs (cs : List Char) (c : Char) : Bool :=
  match cs with
  | [] => false
  | x :: _ => x == c

/-- The last character is `c`. -/
def lastIs (cs : List Char) (c : Char) : Bool := headIs cs.reverse c

/-- The single-quote character (used by `clean_dragged_path`). -/
def apostChar : Char := Char.ofNat 39

/-- Python's `str.replace` of a backslash-space pair by a space,
left to right and non-overlapping. -/
def replaceEscSpace : List Char → List Char
  | [] => []
  | '\\' :: ' ' :: rest => ' ' :: replaceEscSpace rest
  | c :: rest => c :: replaceEscSpace rest

/-- `clean_dragged_path` from `convert.py`: strip whitespace, drop one pair of
matching outer quotes, strip whitespace then quote characters again, and
unescape backslash-escaped spaces. -/
def clean_dragged_path (path : String) : String :=
  let cs := stripList isSpaceChar path.data
  let cs :=
    if (headIs cs '"' && lastIs cs '"') ||
       (headIs cs apostChar && lastIs cs apostChar) then
      (cs.drop 1).dropLast
    else cs
  let cs := stripList isSpaceChar cs
  let cs := stripList (fun c => c == '"') cs
  let cs := stripList (fun c => c == apostChar) cs
  String.mk (replaceEscSpace cs)

/-- Index of the last occurrence of `c` in `cs`, if any. -/
def lastIdxOf (cs : List Char) (c : Char) : Option Nat :=
  (cs.reverse.findIdx? (fun x => x == c)).map (fun j => cs.length - 1 - j)

/-- Splits a character list on a separator character (like `str.split`). -/
def splitOnChar (cs : List Char) (sep : Char) : List (List Char) :=
  cs.foldr
    (fun c acc =>
      match acc with
      | [] => [[c]]
      | g :: gs => if c == sep then [] :: g :: gs else (c :: g) :: gs)
    [[]]

/-- `pathlib.Path(p).name` for POSIX paths: the last nonempty
slash-separated component. -/
def pathName (p : String) : String :=
  String.mk (((splitOnChar p.data '/').filter (fun s => ¬ s.isEmpty)).getLast?.getD [])

/-- `pathlib.Path(p).suffix`: the part of the name from its last dot, when
that dot is neither the first nor the last character of the name. -/
def pathSuffix (p : String) : String :=
  let name := pathName p
  match lastIdxOf name.data '.' with
  | none => ""
  | some i =>
    if 0 < i ∧ i < name.data.length - 1 then String.mk (name.data.drop i) else ""

/-- Lower-cases one ASCII letter (the behavior of Python's `str.lower`
on the ASCII range, which covers the extension table). -/
def lowerChar (c : Char) : Char :=
  if 65 ≤ c.toNat ∧ c.toNat ≤ 90 then Char.ofNat (c.toNat + 32) else c

/-- ASCII `str.lower`. -/
def strToLower (s : String) : String := String.mk (s.data.map lowerChar)

/-- The `supported_extensions` set of `is_image_file` in `convert.py`. -/
def supported_extensions : List String :=
  [".jpg", ".jpeg", ".png", ".bmp", ".tiff", ".tif"]

/-- `is_image_file` from `convert.py`:
`Path(file_path).suffix.lower() in supported_extensions`. -/
def is_image_file (file_path : String) : Bool :=
  supported_extensions.contains (strToLower (pathSuffix file_path))

/-- `os.path.splitext(p)[0]`: everything before the extension, where the
extension starts at the last dot of the basename provided some earlier
character of the basename is not a dot. -/
def splitextRoot (p : String) : String :=
  let cs := p.data
  let base0 := match lastIdxOf cs '/' with | some s => s + 1 | none => 0
  match lastIdxOf (cs.drop base0) '.' with
  | none => p
  | some d =>
    if ((cs.drop base0).take d).any (fun c => ¬ c == '.') then
      String.mk (cs.take (base0 + d))
    else p

/-- Case-insensitive string equality (what comparing a lowercased extension
against a lowercase table implements). -/
def caseInsensitiveEq (a b : String) : Prop := strToLower a = strToLower b

/-- `needle` occurs contiguously inside `hay`. -/
def strContains (needle hay : String) : Prop :=
  ∃ l r : List Char, hay.data = l ++ needle.data ++ r

/-- Modelled from the spec: an RGB sample of the Color Field
(the `Photo2PixelModel` sources are not among the embedded files). -/
structure RGB where
  r : Nat
  g : Nat
  b : Nat
deriving DecidableEq, Repr

/-- Modelled from the spec: a Color Field, a rectangular grid of RGB samples
stored as a list of rows. -/
abbrev ColorField := List (List RGB)

/-- Height of a Color Field. -/
def fieldHeight (f : ColorField) : Nat := f.length

/-- Width of a Color Field: length of its first row, `0` when empty. -/
def fieldWidth (f : ColorField) : Nat := ((f.head?).map List.length).getD 0

/-- Pixel lookup with a default outside the grid (all in-range in practice). -/
def getPx (f : ColorField) (i j : Nat) : RGB := (f.getD i []).getD j ⟨0, 0, 0⟩

/-- Builds an `h × w` grid from a per-cell function. -/
def mkGrid (h w : Nat) (g : Nat → Nat → α) : List (List α) :=
  (List.range h).map fun i => (List.range w).map fun j => g i j

/-- Modelled from the spec: the channel-packed value of a color, used as the
fixed deterministic tie-break rule for representative colors. -/
def packRGB (c : RGB) : Nat := c.r * 65536 + c.g * 256 + c.b

/-- Number of occurrences of a color in a list. -/
def colorCount (cs : List RGB) (c : RGB) : Nat :=
  cs.countP (fun x => decide (x = c))

/-- Picks the better representative between `a` and `b` for the sample list
`cs`: higher occurrence count wins, ties resolved by the lower packed value. -/
def betterRep (cs : List RGB) (a b : RGB) : RGB :=
  if colorCount cs b > colorCount cs a then b
  else if colorCount cs b = colorCount cs a ∧ packRGB b < packRGB a then b
  else a

/-- Modelled from the spec: the representative color of a sample list — the
most frequent color, ties broken by lowest channel-packed value. -/
def representativeColor (cs : List RGB) : RGB :=
  match cs with
  | [] => ⟨0, 0, 0⟩
  | x :: xs => xs.foldl (betterRep (x :: xs)) x

/-- Indices of a clipped window around `center`: from `center - half1`
to `center + half2`, intersected with `[0, bound)`. -/
def windowIdxs (center half1 half2 bound : Nat) : List Nat :=
  (List.range (Nat.min (center + half2) (bound - 1) + 1 - (center - half1))).map
    (fun t => (center - half1) + t)

/-- Modelled from the spec: the colors of the square neighborhood of side
`kernel_size` centered on `(i, j)`, clipped to the field. -/
def neighborhoodColors (f : ColorField) (kernel_size i j : Nat) : List RGB :=
  (windowIdxs i ((kernel_size - 1) / 2) (kernel_size / 2) (fieldHeight f)).flatMap fun i2 =>
    (windowIdxs j ((kernel_size - 1) / 2) (kernel_size / 2) (fieldWidth f)).map fun j2 =>
      getPx f i2 j2

/-- Modelled from the spec: the Smoothing Stage — every output pixel is the
representative color of its clipped `kernel_size`-sided neighborhood. -/
def smoothingStage (f : ColorField) (kernel_size : Nat) : ColorField :=
  mkGrid (fieldHeight f) (fieldWidth f) fun i j =>
    representativeColor (neighborhoodColors f kernel_size i j)

/-- Absolute difference of two naturals. -/
def absDiff (x y : Nat) : Nat := max (x - y) (y - x)

/-- Maximum channel-wise difference between two colors. -/
def chanDiff (a b : RGB) : Nat :=
  max (absDiff a.r b.r) (max (absDiff a.g b.g) (absDiff a.b b.b))

/-- Modelled from the spec: local contrast at `(i, j)` — the maximum
channel-wise difference against the clipped 3×3 window. -/
def edgeMagnitude (f : ColorField) (i j : Nat) : Nat :=
  ((windowIdxs i 1 1 (fieldHeight f)).flatMap fun i2 =>
    (windowIdxs j 1 1 (fieldWidth f)).map fun j2 =>
      chanDiff (getPx f i j) (getPx f i2 j2)).foldl max 0

/-- A pixel is an edge when its local contrast exceeds `edge_thresh`. -/
def edgeAt (f : ColorField) (edge_thresh : Int) (i j : Nat) : Bool :=
  decide ((edgeMagnitude f i j : Int) > edge_thresh)

/-- Modelled from the spec: the Edge Stage — a binary mask of the pixels whose
local contrast exceeds the threshold. -/
def edgeStage (f : ColorField) (edge_thresh : Int) : List (List Bool) :=
  mkGrid (fieldHeight f) (fieldWidth f) fun i j => edgeAt f edge_thresh i j

/-- Modelled from the spec: the colors of block `(bi, bj)` of the
`pixel_size`-sided partition, truncated at the field boundary. -/
def blockColors (f : ColorField) (pixel_size bi bj : Nat) : List RGB :=
  ((List.range (Nat.min ((bi + 1) * pixel_size) (fieldHeight f) - bi * pixel_size)).map
      (fun t => bi * pixel_size + t)).flatMap fun i2 =>
    ((List.range (Nat.min ((bj + 1) * pixel_size) (fieldWidth f) - bj * pixel_size)).map
        (fun t => bj * pixel_size + t)).map fun j2 =>
      getPx f i2 j2

/-- Modelled from the spec: the Pixelation Stage — every pixel takes the
representative color of the block containing it. -/
def pixelationStage (f : ColorField) (pixel_size : Nat) : ColorField :=
  mkGrid (fieldHeight f) (fieldWidth f) fun i j =>
    representativeColor (blockColors f pixel_size (i / pixel_size) (j / pixel_size))

/-- Modelled from the spec: the Compositing Stage — edge pixels are forced to
black, other pixels keep the pixelated color. -/
def compositingStage (pixelated : ColorField) (mask : List (List Bool)) : ColorField :=
  mkGrid (fieldHeight pixelated) (fieldWidth pixelated) fun i j =>
    if (mask.getD i []).getD j false then ⟨0, 0, 0⟩ else getPx pixelated i j

/-- Modelled from the spec: the Pipeline Orchestrator — validates the three
parameters, then runs Smoothing, Edge, Pixelation and Compositing; `none`
when validation fails. -/
def photo2pixelPipeline (f : ColorField) (kernel_size pixel_size edge_thresh : Int) :
    Option ColorField :=
  if validate_parameters kernel_size pixel_size edge_thresh then
    some (compositingStage
      (pixelationStage (smoothingStage f kernel_size.toNat) pixel_size.toNat)
      (edgeStage (smoothingStage f kernel_size.toNat) edge_thresh))
  else none

/-- The `--preset` argparse choices in `convert.py`
(`choices=[retro, smooth, sharp, classic]`). -/
inductive PresetChoice where
  | retro
  | smooth
  | sharp
  | classic
deriving DecidableEq, Repr

/-- The string of a preset choice as argparse delivers it. -/
def presetChoiceName : PresetChoice → String
  | .retro => "retro"
  | .smooth => "smooth"
  | .sharp => "sharp"
  | .classic => "classic"

/-- The parsed command-line arguments of `main` in `convert.py`.  The argparse
defaults are `kernel_size = 10`, `pixel_size = 16`, `edge_thresh = 100`,
`device = "auto"` and `none`/`false` elsewhere. -/
structure Args where
  input : Option String
  output : Option String
  kernel_size : Int
  pixel_size : Int
  edge_thresh : Int
  preset : Option PresetChoice
  interactive : Bool
  device : String
  presets : Bool

/-- Replaces only the `--device` argument of a parsed argument record. -/
def setDevice (a : Args) (d : String) : Args :=
  ⟨a.input, a.output, a.kernel_size, a.pixel_size, a.edge_thresh,
   a.preset, a.interactive, d, a.presets⟩

/-- Observable actions of one `main` invocation, in order. -/
inductive Event where
  | printBanner
  | printPresetsEv
  | openImage (path : String)
  | constructModel
  | runPipeline
  | saveOutput (path : String) (img : ColorField)
deriving DecidableEq, Repr

/-- `true` exactly on the events of the conversion itself: opening the input
image, constructing the model, running the pipeline, writing the output. -/
def isStageEvent : Event → Bool
  | .openImage _ => true
  | .constructModel => true
  | .runPipeline => true
  | .saveOutput _ _ => true
  | _ => false

/-- The external collaborators of `main`: the file system probe, the
image-decoding collaborator (`Image.open` plus tensor conversion, `none` on
failure), and the result of the `interactive_input` dialogue
(input path, output path, parameter configuration). -/
structure Env where
  fileExists : String → Bool
  openImage : String → Option ColorField
  interactiveInput : String × String × PresetConfig

/-- The input path, output path and parameter triple `main` settles on before
validation: the `interactive_input` result in interactive mode, otherwise the
`--input`/`--output` arguments combined with either the chosen preset or the
explicit parameter arguments; `none` when `--input` is missing (help path) or
a preset lookup would raise a `KeyError` (unreachable for argparse choices). -/
def resolveInputs (args : Args) (env : Env) :
    Option (String × String × Int × Int × Int) :=
  if args.interactive then
    some (env.interactiveInput.1, env.interactiveInput.2.1,
      env.interactiveInput.2.2.kernel_size, env.interactiveInput.2.2.pixel_size,
      env.interactiveInput.2.2.edge_thresh)
  else
    match args.input with
    | none => none
    | some ip =>
      let op := args.output.getD (splitextRoot ip ++ "_pixel.png")
      match args.preset with
      | some pr =>
        match get_preset_config (presetChoiceName pr) with
        | some c => some (ip, op, c.kernel_size, c.pixel_size, c.edge_thresh)
        | none => none
      | none => some (ip, op, args.kernel_size, args.pixel_size, args.edge_thresh)

/-- `convert_with_progress` from `convert.py`: open the image, build the
model, run it, save the result; any failure is caught and reported as
`false`. Returns the events performed and the success flag. -/
def convert_with_progress (env : Env) (input_path output_path : String)
    (kernel_size pixel_size edge_thresh : Int) : List Event × Bool :=
  match env.openImage input_path with
  | none => ([Event.openImage input_path], false)
  | some img =>
    match photo2pixelPipeline img kernel_size pixel_size edge_thresh with
    | none => ([Event.openImage input_path, Event.constructModel, Event.runPipeline], false)
    | some out =>
      ([Event.openImage input_path, Event.constructModel, Event.runPipeline,
        Event.saveOutput output_path out], true)

/-- `main` from `convert.py`: banner, the `--presets` shortcut, resolution of
paths and parameters, validation, input-file checks, then the conversion.
Returns the events performed and whether the run avoided `sys.exit(1)`. -/
def main (args : Args) (env : Env) : List Event × Bool :=
  if args.presets then ([Event.printBanner, Event.printPresetsEv], true)
  else
    match resolveInputs args env with
    | none => ([Event.printBanner], true)
    | some (ip, op, k, p, e) =>
      if validate_parameters k p e = false then ([Event.printBanner], true)
      else
        let ip2 := clean_dragged_path ip
        if env.fileExists ip2 = false then ([Event.printBanner], true)
        else if is_image_file ip2 = false then ([Event.printBanner], true)
        else
          let r := convert_with_progress env ip2 op k p e
          (Event.printBanner :: r.1, r.2)

/-- The second occurrence of the parameter value is contained in the message. -/
theorem strContains_value (s1 s2 : String) (v : Int) :
    strContains (toString v) (paramMsg s1 s2 v) :=
  ⟨s1.data, (s2 ++ toString v).data, by simp [paramMsg, String.data_append]⟩

/-- Any piece of the English part of a message is contained in the message. -/
theorem strContains_split (s1 s2 n pre post : String) (v : Int)
    (h : s1.data = pre.data ++ n.data ++ post.data) :
    strContains n (paramMsg s1 s2 v) :=
  ⟨pre.data, post.data ++ (toString v).data ++ s2.data ++ (toString v).data, by
    simp [paramMsg, String.data_append, h]⟩

/-- C1: parameter validation succeeds exactly when `1 ≤ kernel_size ≤ 50`,
`1 ≤ pixel_size ≤ 64` and `0 ≤ edge_thresh ≤ 255`, and each of the six
boundary violations puts the message naming that parameter into the error
list before any stage could run. -/
theorem validate_parameters_spec :
    (∀ k p e : Int, validate_parameters k p e = true ↔
      (1 ≤ k ∧ k ≤ 50) ∧ (1 ≤ p ∧ p ≤ 64) ∧ (0 ≤ e ∧ e ≤ 255)) ∧
    (∀ p e : Int, kernelSizeMsg 0 ∈ validateErrors 0 p e ∧
      kernelSizeMsg 51 ∈ validateErrors 51 p e) ∧
    (∀ k e : Int, pixelSizeMsg 0 ∈ validateErrors k 0 e ∧
      pixelSizeMsg 65 ∈ validateErrors k 65 e) ∧
    (∀ k p : Int, edgeThreshMsg (-1) ∈ validateErrors k p (-1) ∧
      edgeThreshMsg 256 ∈ validateErrors k p 256) := by
  refine ⟨?_, ?_, ?_, ?_⟩
  · intro k p e
    by_cases h1 : 1 ≤ k ∧ k ≤ 50 <;> by_cases h2 : 1 ≤ p ∧ p ≤ 64 <;>
      by_cases h3 : 0 ≤ e ∧ e ≤ 255 <;>
      simp [validate_parameters, validateErrors, h1, h2, h3]
  · intro p e
    constructor <;> simp [validateErrors]
  · intro k e
    constructor <;> simp [validateErrors]
  · intro k p
    constructor <;> simp [validateErrors]

/-- C3: each validation error message names the offending parameter, states
the valid range, and states the offending value. -/
theorem validation_messages_informative (k p e : Int) :
    (¬(1 ≤ k ∧ k ≤ 50) →
      kernelSizeMsg k ∈ validateErrors k p e ∧
      strContains "Kernel size" (kernelSizeMsg k) ∧
      strContains "1-50" (kernelSizeMsg k) ∧
      strContains (toString k) (kernelSizeMsg k)) ∧
    (¬(1 ≤ p ∧ p ≤ 64) →
      pixelSizeMsg p ∈ validateErrors k p e ∧
      strContains "Pixel size" (pixelSizeMsg p) ∧
      strContains "1-64" (pixelSizeMsg p) ∧
      strContains (toString p) (pixelSizeMsg p)) ∧
    (¬(0 ≤ e ∧ e ≤ 255) →
      edgeThreshMsg e ∈ validateErrors k p e ∧
      strContains "Edge threshold" (edgeThreshMsg e) ∧
      strContains "0-255" (edgeThreshMsg e) ∧
      strContains (toString e) (edgeThreshMsg e)) := by
  refine ⟨fun h => ⟨?_, ?_, ?_, ?_⟩, fun h => ⟨?_, ?_, ?_, ?_⟩, fun h => ⟨?_, ?_, ?_, ?_⟩⟩
  · simp [validateErrors, h]
  · exact strContains_split "Kernel size must be between 1-50, got "
      " / 核大小必须在1-50之间，当前值: " "Kernel size" ""
      " must be between 1-50, got " k (by decide)
  · exact strContains_split "Kernel size must be between 1-50, got "
      " / 核大小必须在1-50之间，当前值: " "1-50" "Kernel size must be between "
      ", got " k (by decide)
  · exact strContains_value _ _ k
  · simp [validateErrors, h]
  · exact strContains_split "Pixel size must be between 1-64, got "
      " / 像素大小必须在1-64之间，当前值: " "Pixel size" ""
      " must be between 1-64, got " p (by decide)
  · exact strContains_split "Pixel size must be between 1-64, got "
      " / 像素大小必须在1-64之间，当前值: " "1-64" "Pixel size must be between "
      ", got " p (by decide)
  · exact strContains_value _ _ p
  · simp [validateErrors, h]
  · exact strContains_split "Edge threshold must be between 0-255, got "
      " / 边缘阈值必须在0-255之间，当前值: " "Edge threshold" ""
      " must be between 0-255, got " e (by decide)
  · exact strContains_split "Edge threshold must be between 0-255, got "
      " / 边缘阈值必须在0-255之间，当前值: " "0-255" "Edge threshold must be between "
      ", got " e (by decide)
  · exact strContains_value _ _ e

/-- Witness for C3 at `kernel_size = 0` with the other parameters valid. -/
theorem validation_messages_informative_witness :
    kernelSizeMsg 0 ∈ validateErrors 0 16 100 ∧
    strContains "Kernel size" (kernelSizeMsg 0) ∧
    strContains "1-50" (kernelSizeMsg 0) ∧
    strContains (toString (0 : Int)) (kernelSizeMsg 0) :=
  (validation_messages_informative 0 16 100).1 (by decide)

/-- C4: the four presets resolve to exactly the documented triples. -/
theorem get_preset_config_presets :
    get_preset_config "retro" = some ⟨8, 12, 80⟩ ∧
    get_preset_config "smooth" = some ⟨16, 20, 120⟩ ∧
    get_preset_config "sharp" = some ⟨6, 8, 60⟩ ∧
    get_preset_config "classic" = some ⟨10, 16, 100⟩ := by
  refine ⟨?_, ?_, ?_, ?_⟩ <;> rfl

/-- C8: every name other than the four presets yields the empty
configuration, not an error. -/
theorem get_preset_config_unknown (s : String)
    (h1 : s ≠ "retro") (h2 : s ≠ "smooth") (h3 : s ≠ "sharp") (h4 : s ≠ "classic") :
    get_preset_config s = none := by
  have e1 : (("retro" : String) == s) = false := beq_eq_false_iff_ne.mpr (Ne.symm h1)
  have e2 : (("smooth" : String) == s) = false := beq_eq_false_iff_ne.mpr (Ne.symm h2)
  have e3 : (("sharp" : String) == s) = false := beq_eq_false_iff_ne.mpr (Ne.symm h3)
  have e4 : (("classic" : String) == s) = false := beq_eq_false_iff_ne.mpr (Ne.symm h4)
  simp [get_preset_config, preset_table, List.find?, e1, e2, e3, e4]

/-- Witness for C8 at the unknown name `pixel`. -/
theorem get_preset_config_unknown_witness : get_preset_config "pixel" = none :=
  get_preset_config_unknown "pixel" (by decide) (by decide) (by decide) (by decide)

/-- C10: the table printed by `print_presets` and the table consulted by
`get_preset_config` define the same parameter triple for every name. -/
theorem preset_tables_agree (name : String) :
    ((print_presets_table.find? (fun kv => kv.1 == name)).map
      (fun kv => (kv.2.kernel_size, kv.2.pixel_size, kv.2.edge_thresh))) =
    ((get_preset_config name).map
      (fun c => (c.kernel_size, c.pixel_size, c.edge_thresh))) := by
  cases h1 : (("retro" : String) == name) <;>
  cases h2 : (("smooth" : String) == name) <;>
  cases h3 : (("sharp" : String) == name) <;>
  cases h4 : (("classic" : String) == name) <;>
    simp [print_presets_table, get_preset_config, preset_table, List.find?, h1, h2, h3, h4]

/-- C9: `is_image_file` accepts a path exactly when its suffix equals one of
the six supported extensions up to letter case; upper-case extensions such as
`.JPG` are accepted. -/
theorem is_image_file_spec :
    (∀ p : String, is_image_file p = true ↔
      ∃ ext ∈ supported_extensions, caseInsensitiveEq (pathSuffix p) ext) ∧
    is_image_file "photo.JPG" = true := by
  constructor
  · intro p
    have l1 : strToLower ".jpg" = ".jpg" := by decide
    have l2 : strToLower ".jpeg" = ".jpeg" := by decide
    have l3 : strToLower ".png" = ".png" := by decide
    have l4 : strToLower ".bmp" = ".bmp" := by decide
    have l5 : strToLower ".tiff" = ".tiff" := by decide
    have l6 : strToLower ".tif" = ".tif" := by decide
    simp [is_image_file, supported_extensions, caseInsensitiveEq, l1, l2, l3, l4, l5, l6]
  · decide

/-- C5: `main` ignores the `--device` argument entirely (it is parsed but
never read), so two runs differing only in the device produce the same
events and the same saved output. -/
theorem main_device_independent (a : Args) (env : Env) (d1 d2 : String) :
    main (setDevice a d1) env = main (setDevice a d2) env := rfl

/-- C2: when the resolved parameter triple fails validation, `main` performs
none of the conversion actions: it neither opens the input image, nor
constructs the model, nor runs the pipeline, nor writes an output file. -/
theorem main_fails_fast (args : Args) (env : Env) (ip op : String) (k p e : Int)
    (hres : resolveInputs args env = some (ip, op, k, p, e))
    (hval : validate_parameters k p e = false) :
    ((main args env).1.any isStageEvent) = false := by
  simp only [main, hres, hval]
  cases args.presets <;> simp [isStageEvent]

/-- Witness for C2: `kernel_size = 0` on the command line, everything else
in place, yields a run with no conversion action. -/
theorem main_fails_fast_witness :
    ((main ⟨some "x.jpg", none, 0, 16, 100, none, false, "auto", false⟩
        ⟨fun _ => true, fun _ => some [[⟨0, 0, 0⟩]], ("a.jpg", "b.png", ⟨10, 16, 100⟩)⟩).1.any
      isStageEvent) = false :=
  main_fails_fast _ _ "x.jpg" "x_pixel.png" 0 16 100 (by decide) (by decide)

/-- Length of a generated grid. -/
theorem fieldHeight_mkGrid (h w : Nat) (g : Nat → Nat → RGB) :
    fieldHeight (mkGrid h w g) = h := by
  simp [fieldHeight, mkGrid]

/-- Width of a generated grid. -/
theorem fieldWidth_mkGrid (h w : Nat) (g : Nat → Nat → RGB) :
    fieldWidth (mkGrid h w g) = if h = 0 then 0 else w := by
  cases h with
  | zero => simp [fieldWidth, mkGrid]
  | succ n => simp [fieldWidth, mkGrid, List.range_succ_eq_map]

/-- A field of height zero has width zero. -/
theorem fieldWidth_eq_zero (f : ColorField) (h : fieldHeight f = 0) :
    fieldWidth f = 0 := by
  cases f
  · rfl
  · simp [fieldHeight] at h

/-- A grid generated at a field's own dimensions keeps those dimensions. -/
theorem mkGrid_dims (f : ColorField) (g : Nat → Nat → RGB) :
    fieldHeight (mkGrid (fieldHeight f) (fieldWidth f) g) = fieldHeight f ∧
    fieldWidth (mkGrid (fieldHeight f) (fieldWidth f) g) = fieldWidth f := by
  refine ⟨fieldHeight_mkGrid _ _ _, ?_⟩
  rw [fieldWidth_mkGrid]
  by_cases h : fieldHeight f = 0
  · simp [h, fieldWidth_eq_zero f h]
  · simp [h]

/-- The Smoothing Stage preserves the field's dimensions. -/
theorem smoothingStage_dims (f : ColorField) (k : Nat) :
    fieldHeight (smoothingStage f k) = fieldHeight f ∧
    fieldWidth (smoothingStage f k) = fieldWidth f := mkGrid_dims f _

/-- The Pixelation Stage preserves the field's dimensions. -/
theorem pixelationStage_dims (f : ColorField) (p : Nat) :
    fieldHeight (pixelationStage f p) = fieldHeight f ∧
    fieldWidth (pixelationStage f p) = fieldWidth f := mkGrid_dims f _

/-- The Compositing Stage preserves the pixelated field's dimensions. -/
theorem compositingStage_dims (pixelated : ColorField) (mask : List (List Bool)) :
    fieldHeight (compositingStage pixelated mask) = fieldHeight pixelated ∧
    fieldWidth (compositingStage pixelated mask) = fieldWidth pixelated :=
  mkGrid_dims pixelated _

/-- C6: for every input Color Field and valid parameter triple, the pipeline
produces an output of identical height and width. -/
theorem pipeline_preserves_dims (f : ColorField) (k p e : Int)
    (hv : validate_parameters k p e = true) :
    ∃ out, photo2pixelPipeline f k p e = some out ∧
      fieldHeight out = fieldHeight f ∧ fieldWidth out = fieldWidth f := by
  have h1 := smoothingStage_dims f k.toNat
  have h2 := pixelationStage_dims (smoothingStage f k.toNat) p.toNat
  have h3 := compositingStage_dims
    (pixelationStage (smoothingStage f k.toNat) p.toNat)
    (edgeStage (smoothingStage f k.toNat) e)
  refine ⟨compositingStage (pixelationStage (smoothingStage f k.toNat) p.toNat)
    (edgeStage (smoothingStage f k.toNat) e), ?_, ?_, ?_⟩
  · simp [photo2pixelPipeline, hv]
  · rw [h3.1, h2.1, h1.1]
  · rw [h3.2, h2.2, h1.2]

/-- Witness for C6 at a one-pixel field with parameters (1, 1, 0). -/
theorem pipeline_preserves_dims_witness :
    ∃ out, photo2pixelPipeline [[⟨1, 2, 3⟩]] 1 1 0 = some out ∧
      fieldHeight out = fieldHeight [[⟨1, 2, 3⟩]] ∧
      fieldWidth out = fieldWidth [[⟨1, 2, 3⟩]] :=
  pipeline_preserves_dims [[⟨1, 2, 3⟩]] 1 1 0 (by decide)

/-- C7: the pipeline is a pure function of the field and the parameter
triple — identical inputs give identical (byte-identical) outputs; no other
state, device included, enters the computation. -/
theorem pipeline_deterministic (f1 f2 : ColorField) (k1 p1 e1 k2 p2 e2 : Int)
    (hf : f1 = f2) (hk : k1 = k2) (hp : p1 = p2) (he : e1 = e2) :
    photo2pixelPipeline f1 k1 p1 e1 = photo2pixelPipeline f2 k2 p2 e2 := by
  rw [hf, hk, hp, he]

/-- Witness for C7 at a concrete field and parameter triple. -/
theorem pipeline_deterministic_witness :
    photo2pixelPipeline [[⟨5, 6, 7⟩]] 2 2 10 = photo2pixelPipeline [[⟨5, 6, 7⟩]] 2 2 10 :=
  pipeline_deterministic _ _ 2 2 10 2 2 10 rfl rfl rfl rfl

end Photo2Pixel
